import Mathlib

/-!
Shallow embedding of `src/lib/ws-kernel-picker.ts` (Hydrogen's remote
gateway / session picker) and proofs about its gateway-resolution,
credential-negotiation and session-listing workflow.

External collaborators (the chooser UI, the text prompter, the Jupyter
client library, notifications) are modelled as oracle inputs: every
network call and user prompt becomes an explicit parameter holding the
value that call would have produced, and the control flow of the source
is translated branch by branch.
-/

namespace WSKernelPicker

/-- JS truthiness of an optional string: `undefined`/`null` and the empty
string are falsy, everything else truthy. -/
def strTruthy : Option String → Bool
  | none => false
  | some s => !(s = "")

/-- Substring containment as in `String.prototype.includes`, via list infix. -/
def strIncludes (s pat : String) : Bool :=
  decide (pat.data <:+: s.data)

/-- The `xhr` object attached to a failure raised by the gateway client:
`responseText` (spec-discovery failures) and `status` (session-listing
failures). A missing/undefined `responseText` is collapsed into `""`,
which is equally falsy in the source's checks. -/
structure XhrInfo where
  responseText : String
  status : Nat
deriving DecidableEq, Repr

/-- A failure value raised by the gateway client; `xhr` is absent for pure
transport/programming errors. -/
structure GwError where
  xhr : Option XhrInfo
deriving DecidableEq, Repr

/-- Tag for the HTTP transport factory currently installed in the options:
the default `NodeXMLHttpRequest` factory, or the cookie strategy's factory
that disables the header check so `Cookie` may be set. -/
inductive XhrFactory where
  | default
  | cookieDisabledHeaderCheck
deriving DecidableEq, Repr

/-- Tag for the WebSocket transport factory currently installed in the
options: the default `new ws(url, protocol)` factory, or the cookie
strategy's same-origin masquerading factory carrying the cookie value. -/
inductive WsFactory where
  | default
  | cookieMasquerade (cookie : String)
deriving DecidableEq, Repr

/-- The mutable `KernelGatewayOptions` record threaded through
negotiation. `none` models an absent (`undefined`) field. -/
structure ConnectionOptions where
  baseUrl : String
  token : Option String := none
  requestHeaders : Option (List (String × String)) := none
  xhrFactory : Option XhrFactory := none
  wsFactory : Option WsFactory := none
deriving DecidableEq, Repr

/-- A URL as far as the cookie strategy's WebSocket factory inspects it:
scheme (protocol without the trailing `:`), host, and the rest. -/
structure Url where
  scheme : String
  host : String
  path : String
deriving DecidableEq, Repr

/-- Origin of a URL: scheme, `://`, host. -/
def Url.origin (u : Url) : String :=
  u.scheme ++ "://" ++ u.host

/-- The scheme rewrite the cookie strategy's `wsFactory` performs on its
parsed copy of the URL before reading `origin` and `host`:
`wss:` becomes `https:`, anything else becomes `http:`. -/
def rewriteScheme (u : Url) : Url :=
  if u.scheme = "wss" then { u with scheme := "https" }
  else { u with scheme := "http" }

/-- The arguments the cookie strategy's `wsFactory` hands to the
`ws` WebSocket constructor: the target URL, the subprotocol, and the
`{ headers, origin, host }` option fields. -/
structure WsConnection where
  url : Url
  protocol : String
  headers : List (String × String)
  origin : String
  host : String
deriving DecidableEq, Repr

/-- The WebSocket factory `promptForCookie` installs: parses the URL,
rewrites the parsed copy's scheme (`wss:`/`https:`, else `http:`), then
constructs the socket on the ORIGINAL `url` with `Origin`/`Host` read
from the rewritten copy and the cookie attached as a header. -/
def cookieWsFactory (cookie : String) (url : Url) (protocol : String) :
    WsConnection :=
  let parsedUrl := rewriteScheme url
  { url := url
    protocol := protocol
    headers := [("Cookie", cookie)]
    origin := parsedUrl.origin
    host := parsedUrl.host }

/-- The default `wsFactory` from `onGateway`'s seed options:
`(url, protocol) => new ws(url, protocol)`. -/
def defaultWsFactory (url : Url) (protocol : String) : WsConnection :=
  { url := url, protocol := protocol, headers := [], origin := "", host := "" }

/-- Interpret a `WsFactory` tag as the function it stands for. -/
def applyWsFactory : WsFactory → Url → String → WsConnection
  | .default => defaultWsFactory
  | .cookieMasquerade cookie => cookieWsFactory cookie

/-- JS object-key assignment `headers[k] = v` on an association list:
overwrite in place if the key is present, append otherwise. -/
def setHeader : List (String × String) → String → String → List (String × String)
  | [], k, v => [(k, v)]
  | (k', v') :: rest, k, v =>
    if k' = k then (k, v) :: rest else (k', v') :: setHeader rest k v

/-- Model of `promptForText`: the raw prompt outcome (`none` = cancelled) with an
empty response collapsed to `null`. -/
def promptForText (response : Option String) : Option String :=
  match response with
  | none => none
  | some s => if s = "" then none else some s

/-- Model of `promptForToken`: prompt for a token; on `null` return `false`
untouched, else overwrite `options.token` and return `true`. -/
def promptForToken (response : Option String) (options : ConnectionOptions) :
    Bool × ConnectionOptions :=
  match promptForText response with
  | none => (false, options)
  | some token => (true, { options with token := some token })

/-- Model of `promptForCookie`: prompt for a cookie; on `null` return `false`
untouched, else initialise `requestHeaders` if absent, set its `Cookie`
entry, install the header-check-disabling xhr factory and the
same-origin masquerading ws factory, and return `true`. -/
def promptForCookie (response : Option String) (options : ConnectionOptions) :
    Bool × ConnectionOptions :=
  match promptForText response with
  | none => (false, options)
  | some cookie =>
    let headers := match options.requestHeaders with
      | none => []
      | some hs => hs
    (true,
      { options with
        requestHeaders := some (setHeader headers ("Cookie") cookie)
        xhrFactory := some XhrFactory.cookieDisabledHeaderCheck
        wsFactory := some (WsFactory.cookieMasquerade cookie) })

/-- The user's choice in `promptForCredentials`'s chooser. -/
inductive CredAction where
  | token
  | cookie
  | cancel
deriving DecidableEq, Repr

/-- Model of `promptForCredentials`: dispatch on the chosen strategy; `cancel`
(also reached by cancelling the chooser) leaves the options untouched and
reports no success. -/
def promptForCredentials (action : CredAction)
    (tokenResponse cookieResponse : Option String)
    (options : ConnectionOptions) : Bool × ConnectionOptions :=
  match action with
  | .token => promptForToken tokenResponse options
  | .cookie => promptForCookie cookieResponse options
  | .cancel => (false, options)

/-- One kernel specification as reported at discovery time. -/
structure KernelSpec where
  name : String
  display_name : String
deriving DecidableEq, Repr

/-- The `kernel` sub-object of a listed session model. -/
structure KernelRef where
  name : String
deriving DecidableEq, Repr

/-- One running-session model as returned by `Session.listRunning`;
`notebookPath` collapses `model.notebook?.path`. -/
structure SessionModel where
  id : String
  path : Option String := none
  notebookPath : Option String := none
  kernel : Option KernelRef := none
deriving DecidableEq, Repr

/-- The filtering predicate of `onGateway`'s session listing:
`const name = model.kernel ? model.kernel.name : null;
 return name ? kernelNames.includes(name) : true;`. -/
def sessionKeep (kernelNames : List String) (model : SessionModel) : Bool :=
  let name : Option String := match model.kernel with
    | some k => some k.name
    | none => none
  match name with
  | some n => if n = "" then true else kernelNames.contains n
  | none => true

/-- The display name of a session item: the tilde-shortened `model.path`
if truthy, else the tilde-shortened `model.notebook?.path` if truthy,
else `Session <id>`. `tildify` is the external library, passed in. -/
def sessionItemName (tildify : String → String) (model : SessionModel) :
    String :=
  if strTruthy model.path then tildify (model.path.getD (""))
  else if strTruthy model.notebookPath then tildify (model.notebookPath.getD (""))
  else ("Session " ++ model.id)

/-- An entry of the unified session choice list: either the synthetic
`[new session]` entry (`model: null`, carrying the kernel specs) or one
surviving running session. -/
inductive ChoiceItem where
  | newSession (options : ConnectionOptions) (kernelSpecs : List KernelSpec)
  | session (name : String) (model : SessionModel) (options : ConnectionOptions)
deriving DecidableEq, Repr

/-- The `name` field of a choice item as the chooser displays it. -/
def ChoiceItem.name : ChoiceItem → String
  | .newSession _ _ => "[new session]"
  | .session n _ _ => n

/-- One entry of the kernel-spec choice list shown by
`onSessionWitouthModel` for a new session: labelled by the spec's display
name and carrying the start-session options. -/
structure NewSessionItem where
  name : String
  serverSettings : ConnectionOptions
  kernelName : String
  path : String
deriving DecidableEq, Repr

/-- Item construction of `onSessionWitouthModel`: one item per kernel
spec, labelled `spec.display_name`, with options
`{ serverSettings, kernelName: spec.name, path: this._path }`. -/
def newSessionItems (path : String) (sessionOptions : ConnectionOptions)
    (kernelSpecs : List KernelSpec) : List NewSessionItem :=
  kernelSpecs.map fun spec =>
    { name := spec.display_name
      serverSettings := sessionOptions
      kernelName := spec.name
      path := path }

/-- The classification test at the top of `onGateway`'s catch block:
a failure carries a structured payload iff it has an `xhr` object with a
truthy `responseText` (negation of `!error.xhr || !error.xhr.responseText`). -/
def hasStructuredPayload (error : GwError) : Bool :=
  match error.xhr with
  | none => false
  | some xhr => !(xhr.responseText = "")

/-- The kernel name of a listed session, when one is identifiable:
absent when the session has no kernel object or its name is falsy. -/
def identifiableKernelName (model : SessionModel) : Option String :=
  match model.kernel with
  | some k => if k.name = "" then none else some k.name
  | none => none

/-- The session filter as the specification words it: keep a session iff
its identifiable kernel name is contained in the kernel-spec names, and
keep every session with no identifiable kernel name. -/
def claimKeep (kernelNames : List String) (model : SessionModel) : Bool :=
  match identifiableKernelName model with
  | some n => kernelNames.contains n
  | none => true

/-- JS property read `headers[k]` on an association list. -/
def headerLookup : List (String × String) → String → Option String
  | [], _ => none
  | (k', v') :: rest, k => if k' = k then some v' else headerLookup rest k

/-- How one `onGateway` run ends. -/
inductive GatewayOutcome where
  /-- Re-raise branch (`throw error`): the failure escapes to the caller. -/
  | raised (error : GwError)
  /-- Timeout branch: failure reported, list view cancelled, return. -/
  | abandonedTimeout
  /-- Credential negotiation yielded no mutation: silent return. -/
  | abandonedCancelled
  /-- Outer catch: generic failure reported, list view cancelled. -/
  | fatal
  /-- The unified session choice list was shown. -/
  | sessionChoices (items : List ChoiceItem)
  /-- Forbidden listing (403): straight to the new-session kernel-spec choices. -/
  | newSessionChoices (items : List NewSessionItem)
deriving DecidableEq, Repr

/-- Observable trace of one `onGateway` run: the final outcome, the
options passed to each `Kernel.getSpecs` call in order, the number of
credential-negotiation rounds started, and the error notifications
raised. -/
structure GatewayResult where
  outcome : GatewayOutcome
  specsCalls : List ConnectionOptions
  negotiations : Nat
  reported : List String
deriving DecidableEq, Repr

/-- Oracle for the external calls one `onGateway` run can make: the two
possible `Kernel.getSpecs` results, the credential chooser/prompt
answers, and the `Session.listRunning` result. -/
structure GatewayEnv where
  firstSpecs : Except GwError (List KernelSpec)
  credAction : CredAction
  tokenResponse : Option String
  cookieResponse : Option String
  retrySpecs : Except GwError (List KernelSpec)
  sessions : Except GwError (List SessionModel)

/-- Seed options of `onGateway`: default transport factories overridden
by the gateway descriptor's own fields
(`{ xhrFactory: ..., wsFactory: ..., ...gatewayInfo.options }`). -/
def mergeDefaults (options : ConnectionOptions) : ConnectionOptions :=
  { options with
    xhrFactory := some (options.xhrFactory.getD XhrFactory.default)
    wsFactory := some (options.wsFactory.getD WsFactory.default) }

/-- The body of `onGateway`'s second `try` block: filter the discovered
specs, list sessions, filter and present them; on a listing failure
rethrow unless it carries status 403, in which case proceed directly to
the new-session branch; the outer catch reports a generic failure. -/
def afterSpecs (specFilter : KernelSpec → Bool) (tildify : String → String)
    (path : String) (sessions : Except GwError (List SessionModel))
    (specModels : List KernelSpec) (serverSettings : ConnectionOptions)
    (specsCalls : List ConnectionOptions) (negotiations : Nat) :
    GatewayResult :=
  let kernelSpecs := specModels.filter fun spec => specFilter spec
  let kernelNames := kernelSpecs.map fun specModel => specModel.name
  match sessions with
  | .ok sessionModels =>
    let sessionModels := sessionModels.filter (sessionKeep kernelNames)
    let items := sessionModels.map fun model =>
      ChoiceItem.session (sessionItemName tildify model) model serverSettings
    let items := ChoiceItem.newSession serverSettings kernelSpecs :: items
    { outcome := .sessionChoices items
      specsCalls := specsCalls
      negotiations := negotiations
      reported := [] }
  | .error error =>
    let forbidden := match error.xhr with
      | none => false
      | some xhr => xhr.status = 403
    if forbidden then
      { outcome := .newSessionChoices
          (newSessionItems path serverSettings kernelSpecs)
        specsCalls := specsCalls
        negotiations := negotiations
        reported := [] }
    else
      { outcome := .fatal
        specsCalls := specsCalls
        negotiations := negotiations
        reported := ["Connection to gateway failed"] }

/-- Model of `onGateway`: seed the options with default factories, attempt spec
discovery; on failure classify the error (no structured payload →
re-raise; `ETIMEDOUT` in the response text → report and abandon;
anything else → one round of credential negotiation, then retry
discovery once with the mutated options, any further failure being
caught by the outer catch as fatal); then proceed to session listing. -/
def onGateway (specFilter : KernelSpec → Bool) (tildify : String → String)
    (path : String) (env : GatewayEnv)
    (gatewayInfoOptions : ConnectionOptions) : GatewayResult :=
  let gatewayOptions := mergeDefaults gatewayInfoOptions
  match env.firstSpecs with
  | .ok specModels =>
    afterSpecs specFilter tildify path env.sessions specModels gatewayOptions
      [gatewayOptions] 0
  | .error error =>
    match error.xhr with
    | none =>
      { outcome := .raised error
        specsCalls := [gatewayOptions]
        negotiations := 0
        reported := [] }
    | some xhr =>
    if xhr.responseText = "" then
      { outcome := .raised error
        specsCalls := [gatewayOptions]
        negotiations := 0
        reported := [] }
    else if strIncludes xhr.responseText ("ETIMEDOUT") then
      { outcome := .abandonedTimeout
        specsCalls := [gatewayOptions]
        negotiations := 0
        reported := ["Connection to gateway failed"] }
    else
      let prompt := promptForCredentials env.credAction env.tokenResponse
        env.cookieResponse gatewayOptions
      if !prompt.1 then
        { outcome := .abandonedCancelled
          specsCalls := [gatewayOptions]
          negotiations := 1
          reported := [] }
      else
        match env.retrySpecs with
        | .error _ =>
          { outcome := .fatal
            specsCalls := [gatewayOptions, prompt.2]
            negotiations := 1
            reported := ["Connection to gateway failed"] }
        | .ok specModels =>
          afterSpecs specFilter tildify path env.sessions specModels prompt.2
            [gatewayOptions, prompt.2] 1

/-- A configured gateway descriptor. -/
structure KernelGateway where
  name : String
  options : ConnectionOptions
deriving DecidableEq, Repr

/-- Observable trace of one `toggle` call: notifications raised, the
item set the chooser was updated with (if any), and whether `show()`
was called. -/
structure ToggleResult where
  reported : List String
  chooserItems : Option (List KernelGateway)
  shown : Bool
deriving DecidableEq, Repr

/-- Model of `toggle`: read the configured gateways (`|| []` collapses a falsy
config value to the empty list); if empty, report the failure and
return; otherwise update the chooser with the gateway items and show
it. -/
def toggle (configGateways : Option (List KernelGateway)) : ToggleResult :=
  let gateways := match configGateways with
    | none => []
    | some gs => gs
  if gateways.isEmpty then
    { reported := ["No remote kernel gateways available"]
      chooserItems := none
      shown := false }
  else
    { reported := []
      chooserItems := some gateways
      shown := true }

/-! Concrete sample values used to exercise the embedding. -/

/-- A minimal gateway descriptor option record. -/
def sampleOptions : ConnectionOptions := { baseUrl := "http://gateway.example:8888" }

/-- A failure with no `xhr` object at all (pure transport error). -/
def noXhrError : GwError := { xhr := none }

/-- A failure whose response text flags a timeout. -/
def timeoutError : GwError :=
  { xhr := some { responseText := "connect ETIMEDOUT 10.0.0.1:8888", status := 0 } }

/-- An ambiguous (structured, non-timeout) discovery failure. -/
def deniedError : GwError :=
  { xhr := some { responseText := "403 Forbidden", status := 403 } }

/-- A session-listing failure carrying status 403. -/
def forbiddenListing : GwError :=
  { xhr := some { responseText := "", status := 403 } }

/-- The `py` kernel spec of the specification's examples. -/
def pySpec : KernelSpec := { name := "py", display_name := "py" }

/-- A listed session running a `py` kernel. -/
def pySession : SessionModel := { id := "s1", kernel := some { name := "py" } }

/-- A listed session running an `r` kernel. -/
def rSession : SessionModel := { id := "s2", kernel := some { name := "r" } }

/-- A listed session with no kernel object. -/
def nullKernelSession : SessionModel := { id := "s3" }

/-- Oracle: ambiguous first discovery failure, token negotiation answered
with `secret`, retried discovery failing again. -/
def envAmbiguousRetryFails : GatewayEnv :=
  { firstSpecs := .error deniedError
    credAction := .token
    tokenResponse := some ("secret")
    cookieResponse := none
    retrySpecs := .error deniedError
    sessions := .ok [] }

/-- Oracle: first discovery failure flagged as a timeout. -/
def envTimeout : GatewayEnv :=
  { firstSpecs := .error timeoutError
    credAction := .token
    tokenResponse := some ("secret")
    cookieResponse := none
    retrySpecs := .ok []
    sessions := .ok [] }

/-- Oracle: first discovery failure with no structured payload. -/
def envNoPayload : GatewayEnv :=
  { firstSpecs := .error noXhrError
    credAction := .token
    tokenResponse := some ("secret")
    cookieResponse := none
    retrySpecs := .ok []
    sessions := .ok [] }

/-- Oracle: discovery succeeds with the `py` spec, session listing is
rejected with status 403. -/
def envForbiddenListing : GatewayEnv :=
  { firstSpecs := .ok [pySpec]
    credAction := .cancel
    tokenResponse := none
    cookieResponse := none
    retrySpecs := .ok []
    sessions := .error forbiddenListing }

/-- Oracle: discovery succeeds with the `py` spec, listing returns the
`py`, `r` and kernel-less sessions of the specification's example. -/
def envSessionList : GatewayEnv :=
  { firstSpecs := .ok [pySpec]
    credAction := .cancel
    tokenResponse := none
    cookieResponse := none
    retrySpecs := .ok []
    sessions := .ok [pySession, rSession, nullKernelSession] }

/-! Helper lemmas. -/

theorem headerLookup_setHeader_self (hs : List (String × String)) (k v : String) :
    headerLookup (setHeader hs k v) k = some v := by
  induction hs with
  | nil => simp [setHeader, headerLookup]
  | cons p rest ih =>
    obtain ⟨k₀, v₀⟩ := p
    by_cases h : k₀ = k
    · simp [setHeader, h, headerLookup]
    · simp [setHeader, h, headerLookup, ih]

theorem headerLookup_setHeader_ne (hs : List (String × String)) (k v k' : String)
    (h : ¬ k' = k) :
    headerLookup (setHeader hs k v) k' = headerLookup hs k' := by
  have h' : ¬ k = k' := fun hk => h hk.symm
  induction hs with
  | nil => simp [setHeader, headerLookup, h']
  | cons p rest ih =>
    obtain ⟨k₀, v₀⟩ := p
    by_cases h0 : k₀ = k
    · subst h0
      simp [setHeader, headerLookup, h']
    · simp [setHeader, h0, headerLookup, ih]

/-- The source's session filter agrees with the specification's reading
of it. -/
theorem sessionKeep_eq_claimKeep (kernelNames : List String) (model : SessionModel) :
    sessionKeep kernelNames model = claimKeep kernelNames model := by
  unfold sessionKeep claimKeep identifiableKernelName
  cases model.kernel with
  | none => rfl
  | some k =>
    by_cases h : k.name = "" <;> simp [h]

theorem filter_sessionKeep_eq (kernelNames : List String) (l : List SessionModel) :
    l.filter (sessionKeep kernelNames) = l.filter (claimKeep kernelNames) := by
  induction l with
  | nil => rfl
  | cons m rest ih =>
    simp [List.filter, sessionKeep_eq_claimKeep, ih]

/-- Lemma: `afterSpecs` merely forwards the discovery-call trace. -/
theorem afterSpecs_specsCalls (specFilter : KernelSpec → Bool)
    (tildify : String → String) (path : String)
    (sessions : Except GwError (List SessionModel))
    (specModels : List KernelSpec) (serverSettings : ConnectionOptions)
    (specsCalls : List ConnectionOptions) (negotiations : Nat) :
    (afterSpecs specFilter tildify path sessions specModels serverSettings
        specsCalls negotiations).specsCalls = specsCalls := by
  unfold afterSpecs
  cases sessions with
  | ok l => rfl
  | error e => dsimp only; split <;> rfl

/-- Lemma: `afterSpecs` never starts a negotiation round. -/
theorem afterSpecs_negotiations (specFilter : KernelSpec → Bool)
    (tildify : String → String) (path : String)
    (sessions : Except GwError (List SessionModel))
    (specModels : List KernelSpec) (serverSettings : ConnectionOptions)
    (specsCalls : List ConnectionOptions) (negotiations : Nat) :
    (afterSpecs specFilter tildify path sessions specModels serverSettings
        specsCalls negotiations).negotiations = negotiations := by
  unfold afterSpecs
  cases sessions with
  | ok l => rfl
  | error e => dsimp only; split <;> rfl

/-! Claim theorems. -/

/-- C5: for every configured gateway list that is empty (or absent, which
the source collapses to empty), `toggle` reports the failure and returns
without updating the chooser's item set and without calling `show()`. -/
theorem toggle_empty_reports_never_shows
    (configGateways : Option (List KernelGateway))
    (h : (configGateways.getD []).isEmpty = true) :
    toggle configGateways =
      { reported := ["No remote kernel gateways available"]
        chooserItems := none
        shown := false } := by
  cases configGateways with
  | none => rfl
  | some gs =>
    cases gs with
    | nil => rfl
    | cons g rest => simp [Option.getD, List.isEmpty] at h

/-- Witness for C5 at the empty configured list. -/
theorem toggle_empty_reports_never_shows_witness :
    ((some ([] : List KernelGateway)).getD []).isEmpty = true ∧
    toggle (some []) =
      { reported := ["No remote kernel gateways available"]
        chooserItems := none
        shown := false } :=
  ⟨by decide, toggle_empty_reports_never_shows (some []) (by decide)⟩

/-- C7: applying the token strategy twice with the same prompted value
yields the same options object as applying it once — the token field is
a plain overwrite (this holds for every prompt outcome, cancelled
included). -/
theorem promptForToken_idempotent (response : Option String)
    (options : ConnectionOptions) :
    promptForToken response (promptForToken response options).2 =
      promptForToken response options := by
  cases response with
  | none => rfl
  | some s =>
    by_cases h : s = "" <;> simp [promptForToken, promptForText, h]

/-- C10: the WebSocket factory installed by the cookie strategy hands the
original, unrewritten URL (scheme included) and subprotocol to the
WebSocket constructor; only the `origin` and `host` option fields are
derived from the scheme-rewritten URL. -/
theorem cookie_ws_target_unrewritten (cookie : String) (url : Url)
    (protocol : String) :
    (applyWsFactory (WsFactory.cookieMasquerade cookie) url protocol).url = url ∧
    (applyWsFactory (WsFactory.cookieMasquerade cookie) url protocol).url.scheme
      = url.scheme ∧
    (applyWsFactory (WsFactory.cookieMasquerade cookie) url protocol).protocol
      = protocol ∧
    (applyWsFactory (WsFactory.cookieMasquerade cookie) url protocol).origin
      = (rewriteScheme url).origin ∧
    (applyWsFactory (WsFactory.cookieMasquerade cookie) url protocol).host
      = (rewriteScheme url).host :=
  ⟨rfl, rfl, rfl, rfl, rfl⟩

/-- C6: the transport factory the cookie strategy installs computes its
`Origin`/`Host` option fields from a URL whose scheme is `https` exactly
when the input scheme was `wss` and `http` otherwise — never `ws` or
`wss`. -/
theorem cookie_ws_headers_never_ws_scheme (cookie : String)
    (options : ConnectionOptions) (url : Url) (protocol : String)
    (hc : ¬ cookie = "") :
    (promptForCookie (some cookie) options).2.wsFactory =
      some (WsFactory.cookieMasquerade cookie) ∧
    applyWsFactory (WsFactory.cookieMasquerade cookie) url protocol =
      { url := url
        protocol := protocol
        headers := [("Cookie", cookie)]
        origin := (rewriteScheme url).origin
        host := (rewriteScheme url).host } ∧
    (rewriteScheme url).scheme =
      (if url.scheme = "wss" then "https" else "http") ∧
    ¬ (rewriteScheme url).scheme = "ws" ∧
    ¬ (rewriteScheme url).scheme = "wss" := by
  refine ⟨?_, rfl, ?_, ?_, ?_⟩
  · simp [promptForCookie, promptForText, hc]
  · unfold rewriteScheme
    split <;> rfl
  · unfold rewriteScheme
    split <;> simp
  · unfold rewriteScheme
    split <;> simp

/-- Witness for C6 at a `wss` URL and a concrete cookie. -/
theorem cookie_ws_headers_never_ws_scheme_witness :
    ¬ ("sessionid=abc" : String) = "" ∧
    (promptForCookie (some ("sessionid=abc")) sampleOptions).2.wsFactory =
      some (WsFactory.cookieMasquerade ("sessionid=abc")) ∧
    (rewriteScheme { scheme := "wss", host := "gw:8888", path := "/api" }).scheme
      = "https" :=
  ⟨by decide,
    (cookie_ws_headers_never_ws_scheme ("sessionid=abc") sampleOptions
      { scheme := "wss", host := "gw:8888", path := "/api" } "" (by decide)).1,
    (cookie_ws_headers_never_ws_scheme ("sessionid=abc") sampleOptions
      { scheme := "wss", host := "gw:8888", path := "/api" } "" (by decide)).2.2.1⟩

/-- C8: negotiation steps only add authentication material: the token
strategy overwrites only the token field, and the cookie strategy sets
the `Cookie` header and replaces only the transport factory hooks,
leaving the token, the base URL and every other request header
unchanged. -/
theorem negotiation_monotonic (t cookie k : String)
    (options : ConnectionOptions) (ht : ¬ t = "") (hc : ¬ cookie = "")
    (hk : ¬ k = "Cookie") :
    ((promptForToken (some t) options).2 = { options with token := some t }) ∧
    ((promptForCookie (some cookie) options).2.token = options.token ∧
     (promptForCookie (some cookie) options).2.baseUrl = options.baseUrl ∧
     (promptForCookie (some cookie) options).2.xhrFactory =
       some XhrFactory.cookieDisabledHeaderCheck ∧
     (promptForCookie (some cookie) options).2.wsFactory =
       some (WsFactory.cookieMasquerade cookie) ∧
     headerLookup ((promptForCookie (some cookie) options).2.requestHeaders.getD [])
       "Cookie" = some cookie ∧
     headerLookup ((promptForCookie (some cookie) options).2.requestHeaders.getD [])
       k = headerLookup (options.requestHeaders.getD []) k) := by
  constructor
  · simp [promptForToken, promptForText, ht]
  · cases hreq : options.requestHeaders with
    | none =>
      simp [promptForCookie, promptForText, hc, hreq,
        headerLookup_setHeader_self, headerLookup_setHeader_ne _ _ _ _ hk]
    | some hs =>
      simp [promptForCookie, promptForText, hc, hreq,
        headerLookup_setHeader_self, headerLookup_setHeader_ne _ _ _ _ hk]

/-- Witness for C8 at concrete token, cookie, header key and options. -/
theorem negotiation_monotonic_witness :
    ¬ ("secret" : String) = "" ∧ ¬ ("sid=1" : String) = "" ∧
    ¬ ("X-Other" : String) = "Cookie" ∧
    (promptForToken (some ("secret")) sampleOptions).2 =
      { sampleOptions with token := some ("secret") } ∧
    (promptForCookie (some ("sid=1"))
        { sampleOptions with token := some ("secret") }).2.token = some ("secret") ∧
    headerLookup ((promptForCookie (some ("sid=1"))
        { sampleOptions with token := some ("secret") }).2.requestHeaders.getD [])
      "Cookie" = some ("sid=1") :=
  ⟨by decide, by decide, by decide,
    (negotiation_monotonic ("secret") "sid=1" "X-Other" sampleOptions
      (by decide) (by decide) (by decide)).1,
    (negotiation_monotonic ("secret") "sid=1" "X-Other"
      { sampleOptions with token := some ("secret") }
      (by decide) (by decide) (by decide)).2.1,
    (negotiation_monotonic ("secret") "sid=1" "X-Other"
      { sampleOptions with token := some ("secret") }
      (by decide) (by decide) (by decide)).2.2.2.2.2.1⟩

/-- C9: a first spec-discovery failure with no structured payload (no
`xhr` or falsy response text) is re-raised to the caller: no negotiation,
no timeout report, only the one discovery call, and no choice list (so no
partial resolved kernel) is produced. -/
theorem onGateway_unstructured_failure_raises
    (specFilter : KernelSpec → Bool) (tildify : String → String) (path : String)
    (env : GatewayEnv) (options : ConnectionOptions) (error : GwError)
    (herr : env.firstSpecs = .error error)
    (h : hasStructuredPayload error = false) :
    onGateway specFilter tildify path env options =
      { outcome := .raised error
        specsCalls := [mergeDefaults options]
        negotiations := 0
        reported := [] } := by
  unfold onGateway
  rw [herr]
  obtain ⟨exhr⟩ := error
  unfold hasStructuredPayload at h
  cases exhr with
  | none => rfl
  | some xhr =>
    simp only [Bool.not_eq_false', decide_eq_true_eq] at h
    simp [h]

/-- Witness for C9 at a failure with no `xhr` object. -/
theorem onGateway_unstructured_failure_raises_witness :
    envNoPayload.firstSpecs = .error noXhrError ∧
    hasStructuredPayload noXhrError = false ∧
    onGateway (fun _ => true) (fun s => s) "doc-1" envNoPayload sampleOptions =
      { outcome := .raised noXhrError
        specsCalls := [mergeDefaults sampleOptions]
        negotiations := 0
        reported := [] } :=
  ⟨rfl, rfl, onGateway_unstructured_failure_raises _ _ _ _ _ _ rfl rfl⟩

/-- C2: a first spec-discovery failure whose structured payload contains
the timeout indicator `ETIMEDOUT` reports the failure and abandons: no
negotiation is started and discovery is not retried. -/
theorem onGateway_timeout_no_negotiation
    (specFilter : KernelSpec → Bool) (tildify : String → String) (path : String)
    (env : GatewayEnv) (options : ConnectionOptions) (xhr : XhrInfo)
    (herr : env.firstSpecs = .error { xhr := some xhr })
    (ht : strIncludes xhr.responseText ("ETIMEDOUT") = true) :
    onGateway specFilter tildify path env options =
      { outcome := .abandonedTimeout
        specsCalls := [mergeDefaults options]
        negotiations := 0
        reported := ["Connection to gateway failed"] } := by
  have hne : ¬ xhr.responseText = "" := by
    intro hempty
    rw [hempty] at ht
    exact absurd ht (by decide)
  unfold onGateway
  rw [herr]
  simp [hne, ht]

/-- Witness for C2 at a response text flagging `ETIMEDOUT`. -/
theorem onGateway_timeout_no_negotiation_witness :
    envTimeout.firstSpecs = .error timeoutError ∧
    timeoutError.xhr =
      some { responseText := "connect ETIMEDOUT 10.0.0.1:8888", status := 0 } ∧
    strIncludes ("connect ETIMEDOUT 10.0.0.1:8888") ("ETIMEDOUT") = true ∧
    onGateway (fun _ => true) (fun s => s) "doc-1" envTimeout sampleOptions =
      { outcome := .abandonedTimeout
        specsCalls := [mergeDefaults sampleOptions]
        negotiations := 0
        reported := ["Connection to gateway failed"] } :=
  ⟨rfl, rfl, by decide,
    onGateway_timeout_no_negotiation _ _ _ _ _ _ rfl (by decide)⟩

/-- C1: an ambiguous first spec-discovery failure (structured payload,
no timeout indicator) followed by a successful credential negotiation
runs exactly one negotiation round and retries discovery exactly once,
with the mutated options; if the retried discovery also fails, the run
ends fatal (failure reported) — a second negotiation never starts. -/
theorem onGateway_ambiguous_one_negotiation_then_fatal
    (specFilter : KernelSpec → Bool) (tildify : String → String) (path : String)
    (env : GatewayEnv) (options : ConnectionOptions) (xhr : XhrInfo)
    (herr : env.firstSpecs = .error { xhr := some xhr })
    (hne : ¬ xhr.responseText = "")
    (hnt : strIncludes xhr.responseText ("ETIMEDOUT") = false)
    (hsucc : (promptForCredentials env.credAction env.tokenResponse
        env.cookieResponse (mergeDefaults options)).1 = true) :
    (onGateway specFilter tildify path env options).negotiations = 1 ∧
    (onGateway specFilter tildify path env options).specsCalls =
      [mergeDefaults options,
        (promptForCredentials env.credAction env.tokenResponse
          env.cookieResponse (mergeDefaults options)).2] ∧
    (match env.retrySpecs with
      | .error _ =>
        (onGateway specFilter tildify path env options).outcome =
          GatewayOutcome.fatal ∧
        (onGateway specFilter tildify path env options).reported =
          ["Connection to gateway failed"]
      | .ok _ => True) := by
  cases hr : env.retrySpecs with
  | error e =>
    have hgw : onGateway specFilter tildify path env options =
        { outcome := .fatal
          specsCalls := [mergeDefaults options,
            (promptForCredentials env.credAction env.tokenResponse
              env.cookieResponse (mergeDefaults options)).2]
          negotiations := 1
          reported := ["Connection to gateway failed"] } := by
      unfold onGateway
      rw [herr, hr]
      simp [hne, hnt, hsucc]
    rw [hgw]
    exact ⟨rfl, rfl, rfl, rfl⟩
  | ok specModels =>
    have hgw : onGateway specFilter tildify path env options =
        afterSpecs specFilter tildify path env.sessions specModels
          (promptForCredentials env.credAction env.tokenResponse
            env.cookieResponse (mergeDefaults options)).2
          [mergeDefaults options,
            (promptForCredentials env.credAction env.tokenResponse
              env.cookieResponse (mergeDefaults options)).2] 1 := by
      unfold onGateway
      rw [herr, hr]
      simp [hne, hnt, hsucc]
    rw [hgw]
    exact ⟨afterSpecs_negotiations _ _ _ _ _ _ _ _,
      afterSpecs_specsCalls _ _ _ _ _ _ _ _, True.intro⟩

/-- Witness for C1 at an ambiguous failure, a successful token
negotiation, and a failing retry. -/
theorem onGateway_ambiguous_one_negotiation_then_fatal_witness :
    envAmbiguousRetryFails.firstSpecs = .error deniedError ∧
    deniedError.xhr = some { responseText := "403 Forbidden", status := 403 } ∧
    ¬ ("403 Forbidden" : String) = "" ∧
    strIncludes ("403 Forbidden") ("ETIMEDOUT") = false ∧
    (promptForCredentials envAmbiguousRetryFails.credAction
      envAmbiguousRetryFails.tokenResponse envAmbiguousRetryFails.cookieResponse
      (mergeDefaults sampleOptions)).1 = true ∧
    (onGateway (fun _ => true) (fun s => s) "doc-1" envAmbiguousRetryFails
      sampleOptions).negotiations = 1 ∧
    (onGateway (fun _ => true) (fun s => s) "doc-1" envAmbiguousRetryFails
      sampleOptions).outcome = GatewayOutcome.fatal ∧
    (onGateway (fun _ => true) (fun s => s) "doc-1" envAmbiguousRetryFails
      sampleOptions).reported = ["Connection to gateway failed"] := by
  have h := onGateway_ambiguous_one_negotiation_then_fatal (fun _ => true)
    (fun s => s) "doc-1" envAmbiguousRetryFails sampleOptions
    { responseText := "403 Forbidden", status := 403 }
    rfl (by decide) (by decide) (by decide)
  obtain ⟨h1, h2, h3⟩ := h
  exact ⟨rfl, rfl, by decide, by decide, by decide, h1, h3.1, h3.2⟩

/-- C3: a session-listing failure carrying status 403 is non-fatal: the
run proceeds directly to the new-session branch, presenting one choice
per filtered kernel spec, reporting nothing; a listing failure with any
other status is fatal and reports the failure. -/
theorem onGateway_listing_forbidden_nonfatal
    (specFilter : KernelSpec → Bool) (tildify : String → String) (path : String)
    (env : GatewayEnv) (options : ConnectionOptions)
    (specModels : List KernelSpec) (xhr : XhrInfo)
    (hspecs : env.firstSpecs = .ok specModels)
    (hsess : env.sessions = .error { xhr := some xhr }) :
    if xhr.status = 403 then
      onGateway specFilter tildify path env options =
        { outcome := .newSessionChoices
            (newSessionItems path (mergeDefaults options)
              (specModels.filter fun spec => specFilter spec))
          specsCalls := [mergeDefaults options]
          negotiations := 0
          reported := [] }
    else
      (onGateway specFilter tildify path env options).outcome =
          GatewayOutcome.fatal ∧
      (onGateway specFilter tildify path env options).reported =
          ["Connection to gateway failed"] := by
  by_cases h : xhr.status = 403
  · rw [if_pos h]
    unfold onGateway afterSpecs
    rw [hspecs, hsess]
    simp [h]
  · rw [if_neg h]
    have hgw : onGateway specFilter tildify path env options =
        { outcome := .fatal
          specsCalls := [mergeDefaults options]
          negotiations := 0
          reported := ["Connection to gateway failed"] } := by
      unfold onGateway afterSpecs
      rw [hspecs, hsess]
      simp [h]
    rw [hgw]
    exact ⟨rfl, rfl⟩

/-- Witness for C3: a 403 listing failure with kernel specs `["py"]`
leads to the kernel-choice presentation with the single item `py`. -/
theorem onGateway_listing_forbidden_nonfatal_witness :
    envForbiddenListing.firstSpecs = .ok [pySpec] ∧
    envForbiddenListing.sessions = .error forbiddenListing ∧
    forbiddenListing.xhr = some { responseText := "", status := 403 } ∧
    onGateway (fun _ => true) (fun s => s) "doc-1" envForbiddenListing
      sampleOptions =
      { outcome := .newSessionChoices
          [{ name := "py"
             serverSettings := mergeDefaults sampleOptions
             kernelName := "py"
             path := "doc-1" }]
        specsCalls := [mergeDefaults sampleOptions]
        negotiations := 0
        reported := [] } := by
  have h := onGateway_listing_forbidden_nonfatal (fun _ => true) (fun s => s)
    "doc-1" envForbiddenListing sampleOptions [pySpec]
    { responseText := "", status := 403 } rfl rfl
  rw [if_pos rfl] at h
  exact ⟨rfl, rfl, rfl, h⟩

/-- C4: with discovery and listing both succeeding, the presented choice
list is exactly one synthetic new-session entry followed by the listed
sessions whose identifiable kernel name is among the filtered kernel-spec
names plus every session with no identifiable kernel name, in their
original relative order. -/
theorem onGateway_session_filtering
    (specFilter : KernelSpec → Bool) (tildify : String → String) (path : String)
    (env : GatewayEnv) (options : ConnectionOptions)
    (specModels : List KernelSpec) (sessionModels : List SessionModel)
    (hspecs : env.firstSpecs = .ok specModels)
    (hsess : env.sessions = .ok sessionModels) :
    onGateway specFilter tildify path env options =
      { outcome := .sessionChoices
          (ChoiceItem.newSession (mergeDefaults options)
              (specModels.filter fun spec => specFilter spec) ::
            (sessionModels.filter
                (claimKeep ((specModels.filter fun spec => specFilter spec).map
                  fun specModel => specModel.name))).map
              fun model =>
                ChoiceItem.session (sessionItemName tildify model) model
                  (mergeDefaults options))
        specsCalls := [mergeDefaults options]
        negotiations := 0
        reported := [] } := by
  unfold onGateway afterSpecs
  rw [hspecs, hsess, ← filter_sessionKeep_eq]

/-- Witness for C4 at the specification's example: sessions running `py`,
`r` and no kernel, kernel specs `["py"]`. -/
theorem onGateway_session_filtering_witness :
    envSessionList.firstSpecs = .ok [pySpec] ∧
    envSessionList.sessions = .ok [pySession, rSession, nullKernelSession] ∧
    onGateway (fun _ => true) (fun s => s) "doc-1" envSessionList sampleOptions =
      { outcome := .sessionChoices
          [ChoiceItem.newSession (mergeDefaults sampleOptions) [pySpec],
           ChoiceItem.session ("Session s1") pySession (mergeDefaults sampleOptions),
           ChoiceItem.session ("Session s3") nullKernelSession
             (mergeDefaults sampleOptions)]
        specsCalls := [mergeDefaults sampleOptions]
        negotiations := 0
        reported := [] } := by
  have h := onGateway_session_filtering (fun _ => true) (fun s => s) "doc-1"
    envSessionList sampleOptions [pySpec] [pySession, rSession, nullKernelSession]
    rfl rfl
  exact ⟨rfl, rfl, h⟩

end WSKernelPicker
